import Mathlib

/-!
Verification development for the browsergrid scheduling/orchestration layer.

The Python source under `src/src/browsergrid/server` is shallowly embedded:
database tables become lists of row records (list order = query result order),
ORM row mutation becomes replacement of the first matching row, and each HTTP
handler or manager method becomes a pure Lean function over a `DB` state.
UUIDs and timestamps are modelled as `Nat`; SQL `Integer` columns as `Int`;
JSONB dictionaries as association lists; nullable columns as `Option`.
Float-valued telemetry columns (cpu_percent, memory_usage_mb, disk_usage_mb)
are only ever copied, never computed with, so they are modelled as `Option Int`.
-/

namespace Browsergrid

/-- Enum `SessionStatus` from `server/sessions/enums.py`. -/
inductive SessionStatus
  | pending
  | starting
  | running
  | completed
  | failed
  | expired
  | crashed
  | timedOut
  | terminated
  deriving DecidableEq, Repr, Fintype

/-- Enum `SessionEventType` from `server/sessions/enums.py`. -/
inductive SessionEventType
  | sessionCreated
  | sessionAssigned
  | sessionStarting
  | browserStarted
  | sessionIdle
  | sessionActive
  | sessionCompleted
  | sessionCrashed
  | sessionTimedOut
  | sessionTerminated
  deriving DecidableEq, Repr

/-- Enum `WorkerStatus` from the workerpool enums (`workerpool/enums.py`). -/
inductive WorkerStatus
  | offline
  | online
  | busy
  | draining
  | failed
  deriving DecidableEq, Repr

/-- Enum `WorkPoolStatus` from the workerpool enums (`workerpool/enums.py`). -/
inductive WorkPoolStatus
  | active
  | paused
  | draining
  | inactive
  deriving DecidableEq, Repr

/-- Enum `ProviderType` from the workerpool enums (`workerpool/enums.py`). -/
inductive ProviderType
  | docker
  | azureContainerInstance
  deriving DecidableEq, Repr

/-- Enum `Browser` from `server/sessions/enums.py`. -/
inductive Browser
  | chrome
  | firefox
  | edge
  | safari
  deriving DecidableEq, Repr

/-- Enum `BrowserVersion` from `server/sessions/enums.py`. -/
inductive BrowserVersion
  | latest
  | stable
  | canary
  | dev
  deriving DecidableEq, Repr

/-- Enum `OperatingSystem` from `server/sessions/enums.py`. -/
inductive OperatingSystem
  | windows
  | macos
  | linux
  deriving DecidableEq, Repr

/-- The `.value` string of a `SessionEventType`, as stored in the
`session_events.event` column by `create_event`. -/
def eventTypeValue : SessionEventType → String
  | .sessionCreated => "session_created"
  | .sessionAssigned => "session_assigned"
  | .sessionStarting => "session_starting"
  | .browserStarted => "browser_started"
  | .sessionIdle => "session_idle"
  | .sessionActive => "session_active"
  | .sessionCompleted => "session_completed"
  | .sessionCrashed => "session_crashed"
  | .sessionTimedOut => "session_timed_out"
  | .sessionTerminated => "session_terminated"

/-- Function `get_status_from_event` from `sessions/utils.py`: the event → status
mapping (`mapping.get(event_type)`, `None` when the event carries no status). -/
def get_status_from_event : SessionEventType → Option SessionStatus
  | .sessionCreated => some .pending
  | .sessionAssigned => some .pending
  | .sessionStarting => some .starting
  | .browserStarted => some .running
  | .sessionCompleted => some .completed
  | .sessionCrashed => some .crashed
  | .sessionTimedOut => some .timedOut
  | .sessionTerminated => some .terminated
  | .sessionIdle => none
  | .sessionActive => none

/-- The status `hierarchy` dictionary inside `should_update_status`
(`sessions/utils.py`).  Every status is a key, so the `.get(/* default */ 0)`
fallback never fires. -/
def hierarchy : SessionStatus → Nat
  | .pending => 0
  | .starting => 1
  | .running => 2
  | .completed => 3
  | .failed => 3
  | .expired => 3
  | .crashed => 3
  | .timedOut => 3
  | .terminated => 3

/-- Function `should_update_status` from `sessions/utils.py`:
update exactly when the new status is strictly further along. -/
def should_update_status (current_status new_status : SessionStatus) : Bool :=
  hierarchy new_status > hierarchy current_status

/-- JSONB dictionary payloads (screen, proxy, resource_limits, environment,
provider_details, event data) modelled as association lists.  Python dict
truthiness (`{}` is falsy) is the only operation the embedded code performs
besides copying, so string values suffice. -/
abbrev Dict := List (String × String)

/-- Truthiness of an optional JSONB dict attribute: `None` and `{}` are falsy. -/
def dictTruthy : Option Dict → Bool
  | none => false
  | some d => !d.isEmpty

/-- Truthiness of an optional string attribute: `None` and `""` are falsy. -/
def strTruthy : Option String → Bool
  | none => false
  | some s => !s.isEmpty

/-- Row of the `sessions` table (`sessions/models.py`).  Columns irrelevant to
every claim (`provider`, `webhooks_enabled`, timestamps other than
`created_at`) are omitted.  Browser-configuration attributes are `Option`s:
on the ORM object they may be unpopulated (`None`), which is what
`_apply_pool_defaults` tests for. -/
structure Session where
  id : Nat
  browser : Option Browser
  version : Option BrowserVersion
  headless : Option Bool
  operating_system : Option OperatingSystem
  screen : Option Dict
  proxy : Option Dict
  resource_limits : Option Dict
  environment : Option Dict
  status : SessionStatus
  created_at : Nat
  container_id : Option String
  ws_endpoint : Option String
  live_url : Option String
  worker_id : Option Nat
  work_pool_id : Option Nat
  deriving DecidableEq, Repr

/-- Row of the `session_events` table (`sessions/models.py`). -/
structure SessionEventRow where
  session_id : Nat
  event : String
  data : Option Dict
  deriving DecidableEq, Repr

/-- Row of the `workers` table (`workerpool/models.py`). -/
structure Worker where
  id : Nat
  name : String
  work_pool_id : Nat
  status : WorkerStatus
  capacity : Int
  current_load : Int
  cpu_percent : Option Int
  memory_usage_mb : Option Int
  disk_usage_mb : Option Int
  ip_address : Option String
  last_heartbeat : Option Nat
  provider_type : ProviderType
  provider_details : Dict
  api_key : Option String
  deriving DecidableEq, Repr

/-- Row of the `work_pools` table (`workerpool/models.py`). -/
structure WorkPool where
  id : Nat
  name : String
  provider_type : ProviderType
  status : WorkPoolStatus
  default_browser : Option Browser
  default_browser_version : Option BrowserVersion
  default_headless : Option Bool
  default_operating_system : Option OperatingSystem
  default_screen : Option Dict
  default_proxy : Option Dict
  default_resource_limits : Option Dict
  default_environment : Option Dict
  min_workers : Int
  max_workers : Int
  max_sessions_per_worker : Int
  provider_config : Dict
  description : Option String
  deriving DecidableEq, Repr

/-- The database state: one list per table, list order = physical/query
result order (none of the embedded queries uses ORDER BY). -/
structure DB where
  sessions : List Session
  workers : List Worker
  pools : List WorkPool
  events : List SessionEventRow
  deriving DecidableEq, Repr

/-- An `HTTPException(status_code, detail)` raised by a handler. -/
structure ApiError where
  status_code : Nat
  detail : String
  deriving DecidableEq, Repr

/-- Replace the first row matching `p` by `f` of it — the shallow embedding of
mutating the single ORM object returned by `query(...).filter(p).first()`. -/
def updateFirst (p : α → Bool) (f : α → α) : List α → List α
  | [] => []
  | x :: xs => if p x then f x :: xs else x :: updateFirst p f xs

/-- The `event` field of a POSTed `SessionEventCreate`: either parses as a
`SessionEventType` or stays a raw string (`create_event` keeps unknown strings). -/
inductive EventInput
  | known : SessionEventType → EventInput
  | unknown : String → EventInput
  deriving DecidableEq, Repr

/-- Schema `SessionEventCreate` (`sessions/schema.py`) as consumed by `create_event`. -/
structure SessionEventCreate where
  session_id : Nat
  event : EventInput
  data : Option Dict
  deriving DecidableEq, Repr

/-- Handler for POST /v1/events/ — `create_event` in `sessions/api/v1/events.py`:
verify the session exists (404 otherwise), append the event row, and when the
event type maps to a status that `should_update_status` accepts, update the
session's status.  Returns 201 with the stored event row. -/
def create_event (db : DB) (ev : SessionEventCreate) : Except ApiError (DB × SessionEventRow) :=
  match db.sessions.find? (fun s => decide (s.id = ev.session_id)) with
  | none => .error ⟨404, "Session not found"⟩
  | some session =>
    let event_str := match ev.event with
      | .known e => eventTypeValue e
      | .unknown s => s
    let row : SessionEventRow := ⟨ev.session_id, event_str, ev.data⟩
    let db1 : DB := { db with events := db.events ++ [row] }
    let db2 : DB :=
      match ev.event with
      | .known event_type =>
        match get_status_from_event event_type with
        | some new_status =>
          if should_update_status session.status new_status then
            let sessions' := updateFirst (fun s => decide (s.id = ev.session_id))
              (fun s => { s with status := new_status }) db1.sessions
            { db1 with sessions := sessions' }
          else db1
        | none => db1
      | .unknown _ => db1
    .ok (db2, row)

/-- The optional `details` dict accepted by
`WorkPoolManager.update_session_status`; `some` models a present key. -/
structure StatusDetails where
  container_id : Option String
  ws_endpoint : Option String
  live_url : Option String
  deriving DecidableEq, Repr

/-- Method `WorkPoolManager.update_session_status` (`workerpool/manager.py`):
set the session's status unconditionally, copy any provided connection
details, then — only when the new status is COMPLETED, FAILED or EXPIRED and
the session has a bound worker — decrement that worker's `current_load` if it
is positive. -/
def update_session_status (db : DB) (session_id : Nat) (status : SessionStatus)
    (details : Option StatusDetails) : DB × Bool :=
  match db.sessions.find? (fun s => decide (s.id = session_id)) with
  | none => (db, false)
  | some session =>
    let upd : Session → Session := fun s =>
      let s := { s with status := status }
      match details with
      | none => s
      | some d =>
        { s with
          container_id := match d.container_id with | some c => some c | none => s.container_id
          ws_endpoint := match d.ws_endpoint with | some c => some c | none => s.ws_endpoint
          live_url := match d.live_url with | some c => some c | none => s.live_url }
    let db1 : DB := { db with sessions := updateFirst (fun s => decide (s.id = session_id)) upd db.sessions }
    let db2 : DB :=
      if status = .completed ∨ status = .failed ∨ status = .expired then
        match session.worker_id with
        | some wid =>
          match db1.workers.find? (fun w => decide (w.id = wid)) with
          | some worker =>
            if worker.current_load > 0 then
              let workers' := updateFirst (fun w => decide (w.id = wid))
                (fun w => { w with current_load := w.current_load - 1 }) db1.workers
              { db1 with workers := workers' }
            else db1
          | none => db1
        | none => db1
      else db1
    (db2, true)

/-- Result of `POST /v1/workerpool/workers/{id}/claim-session`. -/
inductive ClaimResult
  | notClaimed (reason : String)
  | claimed (session_id : Nat) (details : Session)
  deriving DecidableEq, Repr

/-- The row filter of the pending-session query inside `claim_pending_session`:
same pool as the worker, status PENDING, `worker_id IS NULL`.  The query has
no ORDER BY and no row lock; `.first()` takes the first row in table order. -/
def claimFilter (pool_id : Nat) (s : Session) : Bool :=
  decide (s.work_pool_id = some pool_id ∧ s.status = .pending ∧ s.worker_id = none)

/-- Handler `claim_pending_session` (`workerpool/api/v1/workers.py`): 404 unless the
worker exists with status ONLINE or BUSY; refuse when at capacity; otherwise
take the first matching PENDING unassigned session of the worker's pool, bind
it to the worker and increment the worker's load, in one commit. -/
def claim_pending_session (db : DB) (worker_id : Nat) : Except ApiError (DB × ClaimResult) :=
  match db.workers.find? (fun w => decide (w.id = worker_id ∧ (w.status = .online ∨ w.status = .busy))) with
  | none => .error ⟨404, "Worker not found or not in active state"⟩
  | some db_worker =>
    if db_worker.current_load ≥ db_worker.capacity then
      .ok (db, .notClaimed "Worker at capacity")
    else
      match db.sessions.find? (claimFilter db_worker.work_pool_id) with
      | none => .ok (db, .notClaimed "No pending sessions")
      | some pending_session =>
        let pending_session' := { pending_session with worker_id := some worker_id }
        let sessions' := updateFirst (claimFilter db_worker.work_pool_id)
          (fun s => { s with worker_id := some worker_id }) db.sessions
        let workers' := updateFirst (fun w => decide (w.id = worker_id ∧ (w.status = .online ∨ w.status = .busy)))
          (fun w => { w with current_load := w.current_load + 1 }) db.workers
        let db' : DB := { db with sessions := sessions', workers := workers' }
        .ok (db', .claimed pending_session'.id pending_session')

/-- Schema `WorkerHeartbeat` (`workerpool/schemas.py`). -/
structure WorkerHeartbeat where
  status : WorkerStatus
  current_load : Int
  cpu_percent : Option Int
  memory_usage_mb : Option Int
  disk_usage_mb : Option Int
  ip_address : Option String
  deriving DecidableEq, Repr

/-- Handler for PUT /workers/(id)/heartbeat — `update_worker_heartbeat`
(`workerpool/api/v1/workers.py`): 404 when the worker is unknown, otherwise
overwrite status, `current_load`, the three telemetry fields and `ip_address`
with the request values and stamp `last_heartbeat := now`. -/
def update_worker_heartbeat (db : DB) (worker_id : Nat) (heartbeat : WorkerHeartbeat)
    (now : Nat) : Except ApiError (DB × Worker) :=
  match db.workers.find? (fun w => decide (w.id = worker_id)) with
  | none => .error ⟨404, "Worker not found"⟩
  | some db_worker =>
    let db_worker' := { db_worker with
      status := heartbeat.status
      current_load := heartbeat.current_load
      cpu_percent := heartbeat.cpu_percent
      memory_usage_mb := heartbeat.memory_usage_mb
      disk_usage_mb := heartbeat.disk_usage_mb
      ip_address := heartbeat.ip_address
      last_heartbeat := some now }
    let workers' := updateFirst (fun w => decide (w.id = worker_id))
      (fun _ => db_worker') db.workers
    .ok ({ db with workers := workers' }, db_worker')

/-- Schema `WorkerCreate` (`workerpool/schemas.py`): note it has no
`current_load` field at all. -/
structure WorkerCreate where
  id : Nat
  name : String
  work_pool_id : Nat
  status : WorkerStatus
  capacity : Int
  provider_type : ProviderType
  provider_details : Dict
  api_key : Option String
  deriving DecidableEq, Repr

/-- Number of random bytes `create_worker` passes to
`secrets.token_urlsafe` when generating a missing api key. -/
def token_urlsafe_nbytes : Nat := 32

/-- Python `worker.api_key or generated`: the request key when truthy
(present and non-empty), else the generated token. -/
def pyOrStr (o : Option String) (generated : String) : String :=
  match o with
  | some k => if k.isEmpty then generated else k
  | none => generated

/-- Handler for POST /workers — `create_worker` (`workerpool/api/v1/workers.py`):
404 when the pool is unknown, 409 when the (name, pool) pair is taken;
otherwise insert a worker with `current_load = 0` and
`api_key = worker.api_key or secrets.token_urlsafe(32)`.  The freshly
generated token is passed in as `generated_key`. -/
def create_worker (db : DB) (worker : WorkerCreate) (generated_key : String) :
    Except ApiError (DB × Worker) :=
  match db.pools.find? (fun p => decide (p.id = worker.work_pool_id)) with
  | none => .error ⟨404, "Work pool not found"⟩
  | some _ =>
    match db.workers.find? (fun w => decide (w.name = worker.name ∧ w.work_pool_id = worker.work_pool_id)) with
    | some _ => .error ⟨409, "Worker name already exists in this work pool"⟩
    | none =>
      let api_key := pyOrStr worker.api_key generated_key
      let db_worker : Worker := {
        id := worker.id
        name := worker.name
        work_pool_id := worker.work_pool_id
        status := worker.status
        capacity := worker.capacity
        current_load := 0
        cpu_percent := none
        memory_usage_mb := none
        disk_usage_mb := none
        ip_address := none
        last_heartbeat := none
        provider_type := worker.provider_type
        provider_details := worker.provider_details
        api_key := some api_key }
      .ok ({ db with workers := db.workers ++ [db_worker] }, db_worker)

/-- Handler for DELETE /pools/(id) — `delete_work_pool` (`workerpool/api/v1/pools.py`):
404 when unknown; with `force = false`, raise 400 when any session of the
pool has status `pending` or `running`; otherwise delete the pool, its
workers cascade (`cascade="all, delete-orphan"`), and referencing sessions
get `work_pool_id` nulled (FK `ondelete="SET NULL"`). -/
def delete_work_pool (db : DB) (pool_id : Nat) (force : Bool) : Except ApiError DB :=
  match db.pools.find? (fun p => decide (p.id = pool_id)) with
  | none => .error ⟨404, "Work pool not found"⟩
  | some _ =>
    let active_sessions :=
      (db.sessions.filter (fun s =>
        decide (s.work_pool_id = some pool_id ∧ (s.status = .pending ∨ s.status = .running)))).length
    if ¬ force ∧ active_sessions > 0 then
      .error ⟨400, "Cannot delete work pool with active sessions. Use force=true to force deletion."⟩
    else
      .ok { db with
        pools := db.pools.filter (fun p => decide (p.id ≠ pool_id))
        workers := db.workers.filter (fun w => decide (w.work_pool_id ≠ pool_id))
        sessions := db.sessions.map (fun s =>
          if s.work_pool_id = some pool_id then { s with work_pool_id := none } else s) }

/-- Method `WorkPoolManager._apply_pool_defaults` (`workerpool/manager.py`): one
conditional copy per default field, in source order.  Python truthiness
governs the tests: enum-valued attributes (`if pool.default_browser and not
session.browser`) are truthy iff present, JSONB dict attributes iff present
and non-empty, and `default_headless` is compared against `None` explicitly. -/
def apply_pool_defaults (pool : WorkPool) (session : Session) : Session :=
  let session :=
    if pool.default_browser.isSome ∧ session.browser.isNone then
      { session with browser := pool.default_browser } else session
  let session :=
    if pool.default_browser_version.isSome ∧ session.version.isNone then
      { session with version := pool.default_browser_version } else session
  let session :=
    if pool.default_headless.isSome ∧ session.headless.isNone then
      { session with headless := pool.default_headless } else session
  let session :=
    if pool.default_operating_system.isSome ∧ session.operating_system.isNone then
      { session with operating_system := pool.default_operating_system } else session
  let session :=
    if dictTruthy pool.default_screen ∧ ¬ dictTruthy session.screen then
      { session with screen := pool.default_screen } else session
  let session :=
    if dictTruthy pool.default_proxy ∧ ¬ dictTruthy session.proxy then
      { session with proxy := pool.default_proxy } else session
  let session :=
    if dictTruthy pool.default_resource_limits ∧ ¬ dictTruthy session.resource_limits then
      { session with resource_limits := pool.default_resource_limits } else session
  let session :=
    if dictTruthy pool.default_environment ∧ ¬ dictTruthy session.environment then
      { session with environment := pool.default_environment } else session
  session

/-- The compatibility filter of the best-pool loop in
`assign_session_to_work_pool`: skip the pool when its default browser is set
and differs from the session's, or its default OS is set and differs. -/
def poolCompatible (session : Session) (pool : WorkPool) : Bool :=
  ¬ ((pool.default_browser.isSome ∧ pool.default_browser ≠ session.browser) ∨
     (pool.default_operating_system.isSome ∧ pool.default_operating_system ≠ session.operating_system))

/-- The `available_workers` count of the best-pool loop: workers of the pool
with status ONLINE or BUSY and `current_load < capacity`. -/
def availableWorkersCount (db : DB) (pool_id : Nat) : Nat :=
  (db.workers.filter (fun w =>
    decide (w.work_pool_id = pool_id ∧ (w.status = .online ∨ w.status = .busy) ∧
      w.current_load < w.capacity))).length

/-- The `current_sessions` count of the best-pool loop: sessions of the pool
with status PENDING or RUNNING (STARTING sessions are not counted). -/
def currentSessionsCount (db : DB) (pool_id : Nat) : Nat :=
  (db.sessions.filter (fun s =>
    decide (s.work_pool_id = some pool_id ∧ (s.status = .pending ∨ s.status = .running)))).length

/-- The score computed for an eligible pool:
`score = available_workers * 10 - current_sessions`. -/
def poolScore (db : DB) (pool : WorkPool) : Int :=
  (availableWorkersCount db pool.id : Int) * 10 - (currentSessionsCount db pool.id : Int)

/-- The `for pool in active_pools` loop of `assign_session_to_work_pool`,
threading the `(best_pool, best_pool_score)` accumulator (initially
`(None, -1)`): skip incompatible pools and pools with zero available workers,
and replace the accumulator only on a strictly greater score. -/
def selectBestPoolAux (db : DB) (session : Session) :
    List WorkPool → Option WorkPool × Int → Option WorkPool × Int
  | [], acc => acc
  | pool :: rest, acc =>
    selectBestPoolAux db session rest
      (if ¬ poolCompatible session pool then acc
       else if availableWorkersCount db pool.id = 0 then acc
       else if poolScore db pool > acc.2 then (some pool, poolScore db pool) else acc)

/-- Method `WorkPoolManager.assign_session_to_work_pool` (`workerpool/manager.py`):
reject unknown or non-PENDING sessions; with a requested pool, require it
ACTIVE and bind it; otherwise run the best-pool loop over the ACTIVE pools in
query order and bind the winner.  After binding, `_apply_pool_defaults` runs
on the same session row (`_try_provision_session` only logs). -/
def assign_session_to_work_pool (db : DB) (session_id : Nat)
    (work_pool_id : Option Nat) : DB × Bool :=
  match db.sessions.find? (fun s => decide (s.id = session_id)) with
  | none => (db, false)
  | some session =>
    if session.status ≠ SessionStatus.pending then (db, false)
    else
      match work_pool_id with
      | some pid =>
        match db.pools.find? (fun p => decide (p.id = pid ∧ p.status = .active)) with
        | none => (db, false)
        | some work_pool =>
          let sessions' := updateFirst (fun s => decide (s.id = session_id))
            (fun s => apply_pool_defaults work_pool { s with work_pool_id := some pid }) db.sessions
          ({ db with sessions := sessions' }, true)
      | none =>
        let active_pools := db.pools.filter (fun p => decide (p.status = .active))
        if active_pools.isEmpty then (db, false)
        else
          match (selectBestPoolAux db session active_pools (none, -1)).1 with
          | some best_pool =>
            let sessions' := updateFirst (fun s => decide (s.id = session_id))
              (fun s => apply_pool_defaults best_pool { s with work_pool_id := some best_pool.id }) db.sessions
            ({ db with sessions := sessions' }, true)
          | none => (db, false)

/-! ### Derived helpers and invariants -/

/-- Invariant I1/P1 of the spec: `0 ≤ current_load ≤ capacity`. -/
def workerInv (w : Worker) : Prop :=
  0 ≤ w.current_load ∧ w.current_load ≤ w.capacity

instance (w : Worker) : Decidable (workerInv w) := by
  unfold workerInv; infer_instance

/-- Lookup of a worker row by primary key. -/
def workerById (db : DB) (wid : Nat) : Option Worker :=
  db.workers.find? (fun w => decide (w.id = wid))

/-- Lookup of a session row by primary key. -/
def sessionById (db : DB) (sid : Nat) : Option Session :=
  db.sessions.find? (fun s => decide (s.id = sid))

/-- The database state reached by a `POST /v1/events/` call (the prior state
when the handler raised). -/
def run_create_event (db : DB) (ev : SessionEventCreate) : DB :=
  match create_event db ev with
  | .ok (db', _) => db'
  | .error _ => db

/-- Fold a sequence of `POST /v1/events/` calls. -/
def run_events (db : DB) (evs : List SessionEventCreate) : DB :=
  evs.foldl run_create_event db

/-- The monotonicity rank of a session's current status (0 when the session
does not exist). -/
def sessionStatusRank (db : DB) (sid : Nat) : Nat :=
  match sessionById db sid with
  | some s => hierarchy s.status
  | none => 0

/-! ### Generic facts about `updateFirst` and `List.find?` -/

theorem updateFirst_of_find?_eq_some {p : α → Bool} {f : α → α} {l : List α} {x : α}
    (h : l.find? p = some x) :
    ∃ l₁ l₂, l = l₁ ++ x :: l₂ ∧ (∀ y ∈ l₁, p y = false) ∧
      updateFirst p f l = l₁ ++ f x :: l₂ := by
  induction l with
  | nil => simp at h
  | cons a as ih =>
    by_cases hpa : p a
    · simp [List.find?_cons_of_pos _ hpa] at h
      subst h
      exact ⟨[], as, by simp, by intro y hy; simp at hy, by simp [updateFirst, hpa]⟩
    · rw [List.find?_cons_of_neg _ (by simpa using hpa)] at h
      obtain ⟨l₁, l₂, hl, hfail, hupd⟩ := ih h
      exact ⟨a :: l₁, l₂, by simp [hl], by simpa [hpa] using hfail,
        by simp [updateFirst, hpa, hupd]⟩

theorem mem_updateFirst {p : α → Bool} {f : α → α} {l : List α} {y : α}
    (h : y ∈ updateFirst p f l) :
    y ∈ l ∨ ∃ x, l.find? p = some x ∧ y = f x := by
  induction l with
  | nil => simp [updateFirst] at h
  | cons a as ih =>
    by_cases hpa : p a
    · simp only [updateFirst, if_pos hpa] at h
      rcases List.mem_cons.mp h with h | h
      · exact Or.inr ⟨a, List.find?_cons_of_pos _ hpa, h⟩
      · exact Or.inl (List.mem_cons_of_mem _ h)
    · simp only [updateFirst, if_neg hpa] at h
      rcases List.mem_cons.mp h with h | h
      · exact Or.inl (h ▸ List.mem_cons_self a as)
      · rcases ih h with h | ⟨x, hx, hy⟩
        · exact Or.inl (List.mem_cons_of_mem _ h)
        · exact Or.inr ⟨x, by rw [List.find?_cons_of_neg _ (by simpa using hpa)]; exact hx, hy⟩

theorem find?_append {p : α → Bool} (l₁ l₂ : List α) :
    (l₁ ++ l₂).find? p = ((l₁.find? p).orElse (fun _ => l₂.find? p)) := by
  induction l₁ with
  | nil => simp
  | cons a as ih =>
    by_cases hpa : p a
    · simp [List.find?_cons_of_pos _ hpa, Option.orElse]
    · simp [List.find?_cons_of_neg _ (by simpa using hpa), ih]

/-! ### Concrete fixtures used by counterexamples and witnesses -/

/-- A session bound to worker 1 in pool 1, already COMPLETED. -/
def s3Session : Session :=
  { id := 1, browser := some .chrome, version := some .latest, headless := some false,
    operating_system := some .linux, screen := some [("width", "1280")], proxy := none,
    resource_limits := none, environment := some [], status := .completed, created_at := 0,
    container_id := none, ws_endpoint := none, live_url := none,
    worker_id := some 1, work_pool_id := some 1 }

/-- An online worker of pool 1 with capacity 5 and load 1. -/
def s3Worker : Worker :=
  { id := 1, name := "w1", work_pool_id := 1, status := .online, capacity := 5,
    current_load := 1, cpu_percent := none, memory_usage_mb := none, disk_usage_mb := none,
    ip_address := none, last_heartbeat := none, provider_type := .docker,
    provider_details := [], api_key := some "k" }

/-- An ACTIVE docker pool without defaults. -/
def s3Pool : WorkPool :=
  { id := 1, name := "dp", provider_type := .docker, status := .active,
    default_browser := none, default_browser_version := none, default_headless := none,
    default_operating_system := none, default_screen := none, default_proxy := none,
    default_resource_limits := none, default_environment := none, min_workers := 0,
    max_workers := 10, max_sessions_per_worker := 5, provider_config := [], description := none }

/-- State of scenario S3: one COMPLETED session bound to one worker. -/
def s3DB : DB := ⟨[s3Session], [s3Worker], [s3Pool], []⟩

/-! ### C4 -/

/-- The status rank table exactly as the claim states it (PENDING = 0,
STARTING = 1, RUNNING = 2, all terminal statuses = 3), to be compared with
the source's `hierarchy`. -/
def specStatusRank : SessionStatus → Nat
  | .pending => 0
  | .starting => 1
  | .running => 2
  | .completed => 3
  | .failed => 3
  | .expired => 3
  | .crashed => 3
  | .timedOut => 3
  | .terminated => 3

/-- Rank of the session `sid` in a bare sessions table. -/
def rankOf (l : List Session) (sid : Nat) : Nat :=
  match l.find? (fun s => decide (s.id = sid)) with
  | some s => hierarchy s.status
  | none => 0

theorem sessionStatusRank_eq_rankOf (db : DB) (sid : Nat) :
    sessionStatusRank db sid = rankOf db.sessions sid := rfl

theorem rankOf_updateFirst_status_le (l : List Session) (tid sid : Nat) (ns : SessionStatus)
    (h : ∀ s, l.find? (fun s => decide (s.id = tid)) = some s →
      hierarchy s.status ≤ hierarchy ns) :
    rankOf l sid ≤
      rankOf (updateFirst (fun s => decide (s.id = tid))
        (fun s => { s with status := ns }) l) sid := by
  induction l with
  | nil => simp [rankOf, updateFirst]
  | cons a as ih =>
    by_cases hta : a.id = tid <;> by_cases hsa : a.id = sid
    · have := h a (by simp [List.find?, hta])
      subst hta; subst hsa
      simp [rankOf, updateFirst, List.find?, this]
    · subst hta
      simp [rankOf, updateFirst, List.find?, hsa]
    · subst hsa
      simp [rankOf, updateFirst, List.find?, hta]
    · have h1 : decide (a.id = tid) = false := by simp [hta]
      have h2 : decide (a.id = sid) = false := by simp [hsa]
      simp only [rankOf, updateFirst, List.find?, h1, if_neg, Bool.false_eq_true,
        not_false_eq_true, h2]
      exact ih (fun s hs => h s (by simp [List.find?, h1]; exact hs))

theorem sessionStatusRank_run_create_event_le (db : DB) (ev : SessionEventCreate) (sid : Nat) :
    sessionStatusRank db sid ≤ sessionStatusRank (run_create_event db ev) sid := by
  rw [run_create_event, create_event]
  cases hfind : db.sessions.find? (fun s => decide (s.id = ev.session_id)) with
  | none => simp
  | some session =>
    cases hev : ev.event with
    | unknown s => simp [sessionStatusRank, sessionById]
    | known et =>
      cases hmap : get_status_from_event et with
      | none => simp [hmap, sessionStatusRank, sessionById]
      | some ns =>
        by_cases hup : should_update_status session.status ns
        · simp only [hmap, hup, if_true]
          rw [sessionStatusRank_eq_rankOf, sessionStatusRank_eq_rankOf]
          refine rankOf_updateFirst_status_le _ _ _ _ (fun s hs => ?_)
          rw [hfind] at hs
          have hs' : session = s := by injection hs
          subst hs'
          have hlt : hierarchy session.status < hierarchy ns := by
            simpa [should_update_status] using hup
          omega
        · simp [hmap, hup, sessionStatusRank, sessionById]

/-- C4: `should_update_status(current, new)` holds exactly when the claim's
rank of `new` strictly exceeds the rank of `current`; consequently a sequence
of `POST /v1/events/` calls never lowers a session's status rank; and, as in
scenario S3, posting `session_starting` to a COMPLETED session returns 201
with the event recorded, while the session's status, the workers (hence every
`current_load`), and the pools are all left unchanged. -/
theorem claim_C4_monotonic_event_engine :
    (∀ c n, should_update_status c n = true ↔ specStatusRank n > specStatusRank c)
    ∧ (∀ db evs sid, sessionStatusRank db sid ≤ sessionStatusRank (run_events db evs) sid)
    ∧ create_event s3DB ⟨1, .known .sessionStarting, none⟩ =
        .ok ({ s3DB with events := [⟨1, "session_starting", none⟩] },
             ⟨1, "session_starting", none⟩) := by
  refine ⟨by decide, ?_, by rfl⟩
  intro db evs sid
  induction evs generalizing db with
  | nil => simp [run_events]
  | cons e es ih =>
    calc sessionStatusRank db sid
        ≤ sessionStatusRank (run_create_event db e) sid :=
          sessionStatusRank_run_create_event_le db e sid
      _ ≤ sessionStatusRank (run_events (run_create_event db e) es) sid := ih _
      _ = sessionStatusRank (run_events db (e :: es)) sid := by simp [run_events]

/-! ### C1 -/

/-- A RUNNING session bound to worker 1 in pool 1. -/
def c1Session : Session := { s3Session with status := .running }

/-- State with a RUNNING session bound to a worker carrying load 1. -/
def c1DB : DB := ⟨[c1Session], [s3Worker], [s3Pool], []⟩

/-- The `POST /v1/events/` handler never touches the workers table, whatever
the event. -/
theorem run_create_event_workers (db : DB) (ev : SessionEventCreate) :
    (run_create_event db ev).workers = db.workers := by
  rw [run_create_event, create_event]
  cases hfind : db.sessions.find? (fun s => decide (s.id = ev.session_id)) with
  | none => rfl
  | some session =>
    cases hev : ev.event with
    | unknown s => rfl
    | known et =>
      cases hmap : get_status_from_event et with
      | none => simp [hmap]
      | some ns =>
        by_cases hup : should_update_status session.status ns
        · simp [hmap, hup]
        · simp [hmap, hup]

/-- C1 counterexample: a terminal event (`session_completed`) posted for a
session whose `worker_id` is non-null is recorded and moves the session to
COMPLETED, yet the bound worker's `current_load` stays 1 — `create_event`
performs no decrement at all, contradicting the claim. -/
theorem claim_C1_counterexample :
    (run_create_event c1DB ⟨1, .known .sessionCompleted, none⟩).sessions.map (fun s => s.status)
        = [SessionStatus.completed]
    ∧ c1Session.worker_id = some s3Worker.id
    ∧ s3Worker.current_load = 1
    ∧ (run_create_event c1DB ⟨1, .known .sessionCompleted, none⟩).workers.map
        (fun w => w.current_load) = [1] :=
  ⟨rfl, rfl, rfl, rfl⟩

/-- A RUNNING session bound to a worker carrying load 2. -/
def c1bWorker : Worker := { s3Worker with current_load := 2 }

/-- State used to show the manager-path decrement repeats on every call. -/
def c1bDB : DB := ⟨[c1Session], [c1bWorker], [s3Pool], []⟩

/-- C1 amended: applying an event through the events API never changes any
worker's `current_load`; the decrement lives only in
`WorkPoolManager.update_session_status`, which leaves workers untouched for
CRASHED, TIMED_OUT and TERMINATED, and for COMPLETED/FAILED/EXPIRED
decrements the bound worker's positive load by one on every call (shown
twice in a row: 2 → 1 → 0), not once per session. -/
theorem claim_C1_amended :
    (∀ db ev, (run_create_event db ev).workers = db.workers)
    ∧ (∀ db sid d, ((update_session_status db sid .crashed d).1).workers = db.workers)
    ∧ (∀ db sid d, ((update_session_status db sid .timedOut d).1).workers = db.workers)
    ∧ (∀ db sid d, ((update_session_status db sid .terminated d).1).workers = db.workers)
    ∧ (update_session_status c1bDB 1 .completed none).1.workers.map
        (fun w => w.current_load) = [1]
    ∧ (update_session_status (update_session_status c1bDB 1 .completed none).1
        1 .completed none).1.workers.map (fun w => w.current_load) = [0] := by
  refine ⟨run_create_event_workers, ?_, ?_, ?_, rfl, rfl⟩ <;>
  · intro db sid d
    rw [update_session_status]
    cases hfind : db.sessions.find? (fun s => decide (s.id = sid)) with
    | none => rfl
    | some session => simp

/-! ### C2 -/

/-- A worker with capacity 1 and load 0 (invariant holds). -/
def c2Worker : Worker := { s3Worker with capacity := 1, current_load := 0 }

/-- State holding only `c2Worker` and its pool. -/
def c2DB : DB := ⟨[], [c2Worker], [s3Pool], []⟩

/-- The heartbeat request used in the C2/C6 counterexamples: it reports
`current_load = 5` to a worker of capacity 1. -/
def c2Heartbeat : WorkerHeartbeat := ⟨.online, 5, none, none, none, none⟩

/-- The worker row produced by that heartbeat. -/
def c2WorkerAfter : Worker :=
  { c2Worker with
      status := .online
      current_load := 5
      cpu_percent := none
      memory_usage_mb := none
      disk_usage_mb := none
      ip_address := none
      last_heartbeat := some 7 }

/-- C2 counterexample: heartbeat ingestion copies the request's
`current_load` into the worker row with no bounds check, so a single
heartbeat drives a worker satisfying `0 ≤ load ≤ capacity` to
`load = 5 > capacity = 1`. -/
theorem claim_C2_counterexample :
    workerInv c2Worker
    ∧ update_worker_heartbeat c2DB 1 c2Heartbeat 7 =
        .ok (⟨[], [c2WorkerAfter], [s3Pool], []⟩, c2WorkerAfter)
    ∧ ¬ workerInv c2WorkerAfter :=
  ⟨by decide, rfl, by decide⟩

/-- C2 amended: the bound `0 ≤ current_load ≤ capacity` is preserved by the
claim endpoint, by `update_session_status`, by event ingestion, and by worker
creation (when the requested capacity is non-negative) — but not by heartbeat
ingestion, which writes the request's load verbatim. -/
theorem claim_C2_amended (db : DB) (hinv : ∀ w ∈ db.workers, workerInv w) :
    (∀ wid db' r, claim_pending_session db wid = .ok (db', r) →
      ∀ w ∈ db'.workers, workerInv w)
    ∧ (∀ sid st d, ∀ w ∈ (update_session_status db sid st d).1.workers, workerInv w)
    ∧ (∀ ev, ∀ w ∈ (run_create_event db ev).workers, workerInv w)
    ∧ (∀ req gk db' w0, 0 ≤ req.capacity → create_worker db req gk = .ok (db', w0) →
        ∀ w ∈ db'.workers, workerInv w) := by
  refine ⟨?_, ?_, ?_, ?_⟩
  · intro wid db' r h w hw
    unfold claim_pending_session at h
    split at h
    · exact absurd h (by simp)
    · rename_i dbw hfw
      split at h
      · rcases h with ⟨rfl, rfl⟩
        exact hinv w hw
      · rename_i hcap
        split at h
        · rcases h with ⟨rfl, rfl⟩
          exact hinv w hw
        · rename_i ps hfs
          rcases h with ⟨rfl, rfl⟩
          rcases mem_updateFirst hw with hmem | ⟨x, hfx, rfl⟩
          · exact hinv w hmem
          · rw [hfw] at hfx
            have hx : dbw = x := by injection hfx
            subst hx
            have hmem := List.mem_of_find?_eq_some hfw
            have := hinv dbw hmem
            unfold workerInv at this ⊢
            simp only at *
            omega
  · intro sid st d w hw
    unfold update_session_status at hw
    split at hw
    · exact hinv w hw
    · rename_i session hfind
      simp only at hw
      split at hw
      · split at hw
        · split at hw
          · split at hw
            · rcases mem_updateFirst hw with hmem | ⟨x, hfx, rfl⟩
              · exact hinv w hmem
              · rename_i worker hwf hload
                have hmem := List.mem_of_find?_eq_some hfx
                have := hinv x hmem
                have hx : worker = x := by
                  rw [hwf] at hfx; injection hfx
                subst hx
                unfold workerInv at this ⊢
                simp only at *
                omega
            · exact hinv w hw
          · exact hinv w hw
        · exact hinv w hw
      · exact hinv w hw
  · intro ev w hw
    rw [run_create_event_workers] at hw
    exact hinv w hw
  · intro req gk db' w0 hcap h
    unfold create_worker at h
    split at h
    · exact absurd h (by simp)
    · split at h
      · exact absurd h (by simp)
      · rcases h with ⟨rfl, rfl⟩
        intro w hw
        rcases List.mem_append.mp hw with hmem | hmem
        · exact hinv w hmem
        · rcases List.mem_singleton.mp hmem with rfl
          exact ⟨le_refl 0, hcap⟩

/-- C2 witness: in the concrete state `c1bDB` the invariant holds, and after
`update_session_status` completes the session, the decremented worker still
satisfies it. -/
theorem claim_C2_amended_witness :
    workerInv { c1bWorker with current_load := 1 } :=
  (claim_C2_amended c1bDB (by decide)).2.1 1 .completed none
    { c1bWorker with current_load := 1 } (by decide)

/-! ### C6 -/

/-- C6 counterexample: the heartbeat handler writes the request's
`current_load` into the worker row (0 → 5 here), contradicting the claim
that heartbeats never modify `current_load`. -/
theorem claim_C6_counterexample :
    update_worker_heartbeat c2DB 1 c2Heartbeat 7 =
      .ok (⟨[], [c2WorkerAfter], [s3Pool], []⟩, c2WorkerAfter)
    ∧ c2Worker.current_load = 0
    ∧ c2WorkerAfter.current_load = 5 :=
  ⟨rfl, rfl, rfl⟩

/-- C6 amended: a heartbeat modifies no session, pool or event row, and on
the workers table it rewrites exactly the found worker's status,
`current_load`, telemetry (cpu, memory, disk), `ip_address` and
`last_heartbeat := now`, preserving its `capacity`, name, pool binding,
provider type and api key; every other worker row is untouched. -/
theorem claim_C6_amended (db : DB) (wid : Nat) (hb : WorkerHeartbeat) (now : Nat)
    (db' : DB) (w' : Worker)
    (h : update_worker_heartbeat db wid hb now = .ok (db', w')) :
    db'.sessions = db.sessions ∧ db'.pools = db.pools ∧ db'.events = db.events
    ∧ (∀ x ∈ db'.workers, x ∈ db.workers ∨
        (x = w' ∧ ∃ y, db.workers.find? (fun v => decide (v.id = wid)) = some y ∧
          x.capacity = y.capacity ∧ x.name = y.name ∧ x.work_pool_id = y.work_pool_id ∧
          x.provider_type = y.provider_type ∧ x.api_key = y.api_key ∧
          x.status = hb.status ∧ x.current_load = hb.current_load ∧
          x.cpu_percent = hb.cpu_percent ∧ x.memory_usage_mb = hb.memory_usage_mb ∧
          x.disk_usage_mb = hb.disk_usage_mb ∧ x.ip_address = hb.ip_address ∧
          x.last_heartbeat = some now)) := by
  unfold update_worker_heartbeat at h
  split at h
  · exact absurd h (by simp)
  · rename_i y hfy
    rcases h with ⟨rfl, rfl⟩
    refine ⟨rfl, rfl, rfl, ?_⟩
    intro x hx
    rcases mem_updateFirst hx with hmem | ⟨z, hfz, rfl⟩
    · exact Or.inl hmem
    · rw [hfy] at hfz
      have hz : y = z := by injection hfz
      subst hz
      exact Or.inr ⟨rfl, y, hfy, rfl, rfl, rfl, rfl, rfl, rfl, rfl, rfl, rfl, rfl, rfl, rfl⟩

/-- C6 witness: the amended theorem applied to the concrete heartbeat of the
counterexample state shows the sessions table is untouched. -/
theorem claim_C6_amended_witness :
    (DB.mk [] [c2WorkerAfter] [s3Pool] []).sessions = c2DB.sessions :=
  (claim_C6_amended c2DB 1 c2Heartbeat 7 _ _ rfl).1

/-! ### Primary-key lookup lemmas (rows have unique ids) -/

theorem find?_id_of_find? (idf : α → Nat) (k : Nat) {q : α → Bool} {l : List α} {x : α}
    (hnd : (l.map idf).Nodup) (hx : l.find? q = some x) (hk : idf x = k) :
    l.find? (fun a => decide (idf a = k)) = some x := by
  induction l with
  | nil => simp at hx
  | cons a as ih =>
    simp only [List.map_cons, List.nodup_cons] at hnd
    by_cases hqa : q a
    · rw [List.find?_cons_of_pos _ hqa] at hx
      have ha : a = x := by injection hx
      subst ha
      exact List.find?_cons_of_pos _ (by simp [hk])
    · rw [List.find?_cons_of_neg _ (by simpa using hqa)] at hx
      have hxmem : x ∈ as := List.mem_of_find?_eq_some hx
      have hne : ¬ idf a = k := by
        rw [← hk]
        intro hEq
        exact hnd.1 (hEq ▸ List.mem_map_of_mem idf hxmem)
      rw [List.find?_cons_of_neg _ (by simpa using hne)]
      exact ih hnd.2 hx

theorem find?_id_updateFirst (idf : α → Nat) (k : Nat) {q : α → Bool} {f : α → α}
    {l : List α} {x : α}
    (hnd : (l.map idf).Nodup) (hx : l.find? q = some x) (hf : idf (f x) = idf x)
    (hk : idf x = k) :
    (updateFirst q f l).find? (fun a => decide (idf a = k)) = some (f x) := by
  induction l with
  | nil => simp at hx
  | cons a as ih =>
    simp only [List.map_cons, List.nodup_cons] at hnd
    by_cases hqa : q a
    · rw [List.find?_cons_of_pos _ hqa] at hx
      have ha : a = x := by injection hx
      subst ha
      simp only [updateFirst, if_pos hqa]
      exact List.find?_cons_of_pos _ (by simp [hf, hk])
    · rw [List.find?_cons_of_neg _ (by simpa using hqa)] at hx
      have hxmem : x ∈ as := List.mem_of_find?_eq_some hx
      have hne : ¬ idf a = k := by
        rw [← hk]
        intro hEq
        exact hnd.1 (hEq ▸ List.mem_map_of_mem idf hxmem)
      simp only [updateFirst, if_neg hqa]
      rw [List.find?_cons_of_neg _ (by simpa using hne)]
      exact ih hnd.2 hx

/-! ### C3 -/

/-- C3: a successful claim implies the worker was ONLINE or BUSY with spare
capacity, the session was PENDING, unassigned and in the worker's pool, and
in the post-state (one transaction) the session is bound to the worker while
that worker's load is exactly one greater. -/
theorem claim_C3_claim_postconditions (db : DB) (wid : Nat) (db' : DB) (sid : Nat) (s : Session)
    (h : claim_pending_session db wid = .ok (db', .claimed sid s))
    (hnds : (db.sessions.map (fun x => x.id)).Nodup)
    (hndw : (db.workers.map (fun x => x.id)).Nodup) :
    ∃ w ps,
      workerById db wid = some w
      ∧ (w.status = .online ∨ w.status = .busy)
      ∧ w.current_load < w.capacity
      ∧ sessionById db sid = some ps
      ∧ ps.status = .pending ∧ ps.worker_id = none ∧ ps.work_pool_id = some w.work_pool_id
      ∧ s = { ps with worker_id := some wid }
      ∧ sessionById db' sid = some { ps with worker_id := some wid }
      ∧ workerById db' wid = some { w with current_load := w.current_load + 1 } := by
  unfold claim_pending_session at h
  split at h
  · exact absurd h (by simp)
  · rename_i dbw hfw
    have hdbw : dbw.id = wid ∧ (dbw.status = .online ∨ dbw.status = .busy) := by
      simpa using List.find?_some hfw
    split at h
    · exact absurd h (by simp)
    · rename_i hcap
      split at h
      · exact absurd h (by simp)
      · rename_i ps hfs
        simp only [Except.ok.injEq, Prod.mk.injEq, ClaimResult.claimed.injEq] at h
        obtain ⟨rfl, rfl, rfl⟩ := h
        have hps : ps.work_pool_id = some dbw.work_pool_id ∧ ps.status = .pending ∧
            ps.worker_id = none := by
          simpa [claimFilter] using List.find?_some hfs
        refine ⟨dbw, ps, ?_, hdbw.2, by omega, ?_, hps.2.1, hps.2.2, hps.1, rfl, ?_, ?_⟩
        · exact find?_id_of_find? (fun x => x.id) wid hndw hfw hdbw.1
        · exact find?_id_of_find? (fun x => x.id) ps.id hnds hfs rfl
        · exact find?_id_updateFirst (fun x => x.id) ps.id
            (f := fun s => { s with worker_id := some wid }) hnds hfs rfl rfl
        · exact find?_id_updateFirst (fun x => x.id) wid
            (f := fun w => { w with current_load := w.current_load + 1 }) hndw hfw rfl hdbw.1

/-! ### C5 (and the concrete C3 witness state) -/

/-- A claimable PENDING session (id 10) created at time 100. -/
def c5SessionA : Session :=
  { s3Session with id := 10, status := .pending, worker_id := none, created_at := 100 }

/-- A claimable PENDING session (id 11) created earlier, at time 50, but
stored after `c5SessionA` in table order. -/
def c5SessionB : Session :=
  { s3Session with id := 11, status := .pending, worker_id := none, created_at := 50 }

/-- State with two claimable sessions in pool 1 and one online worker. -/
def c5DB : DB := ⟨[c5SessionA, c5SessionB], [s3Worker], [s3Pool], []⟩

/-- Session 10 after being claimed by worker 1. -/
def c5SessionAafter : Session := { c5SessionA with worker_id := some 1 }

/-- Worker 1 after a successful claim (load 1 → 2). -/
def c5WorkerAfter : Worker := { s3Worker with current_load := 2 }

/-- State after worker 1 claims session 10. -/
def c5DBafter : DB := ⟨[c5SessionAafter, c5SessionB], [c5WorkerAfter], [s3Pool], []⟩

/-- C5 counterexample: with two claimable sessions of the same pool, the
claim endpoint hands out session 10 (first in table order, created at t=100)
even though session 11 was created earlier (t=50) — the query has no
`ORDER BY created_at`, so FIFO does not hold. -/
theorem claim_C5_counterexample :
    claim_pending_session c5DB 1 = .ok (c5DBafter, .claimed 10 c5SessionAafter)
    ∧ claimFilter s3Worker.work_pool_id c5SessionB = true
    ∧ c5SessionB.created_at < c5SessionA.created_at :=
  ⟨rfl, rfl, by decide⟩

/-- C5 amended: a successful claim selects the first session in query
(table) order among those of the worker's pool with status PENDING and
`worker_id IS NULL`; no ordering on `created_at` (and no row lock) is
involved. -/
theorem claim_C5_amended (db : DB) (wid : Nat) (db' : DB) (sid : Nat) (s : Session)
    (h : claim_pending_session db wid = .ok (db', .claimed sid s)) :
    ∃ w l₁ l₂ ps,
      db.workers.find? (fun x => decide (x.id = wid ∧ (x.status = .online ∨ x.status = .busy)))
          = some w
      ∧ db.sessions = l₁ ++ ps :: l₂
      ∧ (∀ y ∈ l₁, claimFilter w.work_pool_id y = false)
      ∧ claimFilter w.work_pool_id ps = true
      ∧ sid = ps.id ∧ s = { ps with worker_id := some wid } := by
  unfold claim_pending_session at h
  split at h
  · exact absurd h (by simp)
  · rename_i dbw hfw
    split at h
    · exact absurd h (by simp)
    · split at h
      · exact absurd h (by simp)
      · rename_i ps hfs
        simp only [Except.ok.injEq, Prod.mk.injEq, ClaimResult.claimed.injEq] at h
        obtain ⟨rfl, rfl, rfl⟩ := h
        obtain ⟨l₁, l₂, hdecomp, hfail, _⟩ := updateFirst_of_find?_eq_some
          (f := fun s => { s with worker_id := some wid }) hfs
        exact ⟨dbw, l₁, l₂, ps, hfw, hdecomp, hfail, List.find?_some hfs, rfl, rfl⟩

/-- C5 witness: the amended selection property evaluated on the concrete
two-session state. -/
theorem claim_C5_amended_witness :
    ∃ w l₁ l₂ ps,
      c5DB.workers.find? (fun x => decide (x.id = 1 ∧ (x.status = .online ∨ x.status = .busy)))
          = some w
      ∧ c5DB.sessions = l₁ ++ ps :: l₂
      ∧ (∀ y ∈ l₁, claimFilter w.work_pool_id y = false)
      ∧ claimFilter w.work_pool_id ps = true
      ∧ 10 = ps.id ∧ c5SessionAafter = { ps with worker_id := some 1 } :=
  claim_C5_amended c5DB 1 c5DBafter 10 c5SessionAafter rfl

/-- C3 witness: the postcondition theorem evaluated on the concrete claim of
session 10 by worker 1. -/
theorem claim_C3_witness :
    ∃ w ps,
      workerById c5DB 1 = some w
      ∧ (w.status = .online ∨ w.status = .busy)
      ∧ w.current_load < w.capacity
      ∧ sessionById c5DB 10 = some ps
      ∧ ps.status = .pending ∧ ps.worker_id = none ∧ ps.work_pool_id = some w.work_pool_id
      ∧ c5SessionAafter = { ps with worker_id := some 1 }
      ∧ sessionById c5DBafter 10 = some { ps with worker_id := some 1 }
      ∧ workerById c5DBafter 1 = some { w with current_load := w.current_load + 1 } :=
  claim_C3_claim_postconditions c5DB 1 c5DBafter 10 c5SessionAafter rfl (by decide) (by decide)

/-! ### C8 -/

attribute [ext] Session

theorem aps_browser (pool : WorkPool) (s : Session) :
    (apply_pool_defaults pool s).browser =
      if pool.default_browser.isSome ∧ s.browser.isNone then pool.default_browser
      else s.browser := by
  simp only [apply_pool_defaults, apply_ite Session.browser, ite_self]

theorem aps_version (pool : WorkPool) (s : Session) :
    (apply_pool_defaults pool s).version =
      if pool.default_browser_version.isSome ∧ s.version.isNone then pool.default_browser_version
      else s.version := by
  simp only [apply_pool_defaults, apply_ite Session.version, ite_self]

theorem aps_headless (pool : WorkPool) (s : Session) :
    (apply_pool_defaults pool s).headless =
      if pool.default_headless.isSome ∧ s.headless.isNone then pool.default_headless
      else s.headless := by
  simp only [apply_pool_defaults, apply_ite Session.headless, ite_self]

theorem aps_operating_system (pool : WorkPool) (s : Session) :
    (apply_pool_defaults pool s).operating_system =
      if pool.default_operating_system.isSome ∧ s.operating_system.isNone then
        pool.default_operating_system
      else s.operating_system := by
  simp only [apply_pool_defaults, apply_ite Session.operating_system, ite_self]

theorem aps_screen (pool : WorkPool) (s : Session) :
    (apply_pool_defaults pool s).screen =
      if dictTruthy pool.default_screen ∧ ¬ dictTruthy s.screen then pool.default_screen
      else s.screen := by
  simp only [apply_pool_defaults, apply_ite Session.screen, ite_self]

theorem aps_proxy (pool : WorkPool) (s : Session) :
    (apply_pool_defaults pool s).proxy =
      if dictTruthy pool.default_proxy ∧ ¬ dictTruthy s.proxy then pool.default_proxy
      else s.proxy := by
  simp only [apply_pool_defaults, apply_ite Session.proxy, ite_self]

theorem aps_resource_limits (pool : WorkPool) (s : Session) :
    (apply_pool_defaults pool s).resource_limits =
      if dictTruthy pool.default_resource_limits ∧ ¬ dictTruthy s.resource_limits then
        pool.default_resource_limits
      else s.resource_limits := by
  simp only [apply_pool_defaults, apply_ite Session.resource_limits, ite_self]

theorem aps_environment (pool : WorkPool) (s : Session) :
    (apply_pool_defaults pool s).environment =
      if dictTruthy pool.default_environment ∧ ¬ dictTruthy s.environment then
        pool.default_environment
      else s.environment := by
  simp only [apply_pool_defaults, apply_ite Session.environment, ite_self]

theorem aps_frame (pool : WorkPool) (s : Session) :
    (apply_pool_defaults pool s).id = s.id
    ∧ (apply_pool_defaults pool s).status = s.status
    ∧ (apply_pool_defaults pool s).created_at = s.created_at
    ∧ (apply_pool_defaults pool s).container_id = s.container_id
    ∧ (apply_pool_defaults pool s).ws_endpoint = s.ws_endpoint
    ∧ (apply_pool_defaults pool s).live_url = s.live_url
    ∧ (apply_pool_defaults pool s).worker_id = s.worker_id
    ∧ (apply_pool_defaults pool s).work_pool_id = s.work_pool_id := by
  refine ⟨?_, ?_, ?_, ?_, ?_, ?_, ?_, ?_⟩ <;>
    simp only [apply_pool_defaults, apply_ite Session.id, apply_ite Session.status,
      apply_ite Session.created_at, apply_ite Session.container_id,
      apply_ite Session.ws_endpoint, apply_ite Session.live_url,
      apply_ite Session.worker_id, apply_ite Session.work_pool_id, ite_self]

theorem apply_pool_defaults_idem (pool : WorkPool) (s : Session) :
    apply_pool_defaults pool (apply_pool_defaults pool s) = apply_pool_defaults pool s := by
  ext1
  · rw [(aps_frame pool (apply_pool_defaults pool s)).1]
  · rw [aps_browser, aps_browser]
    rcases hd : pool.default_browser with _ | b <;> rcases hs : s.browser with _ | sb <;>
      simp [hd, hs]
  · rw [aps_version, aps_version]
    rcases hd : pool.default_browser_version with _ | b <;> rcases hs : s.version with _ | sb <;>
      simp [hd, hs]
  · rw [aps_headless, aps_headless]
    rcases hd : pool.default_headless with _ | b <;> rcases hs : s.headless with _ | sb <;>
      simp [hd, hs]
  · rw [aps_operating_system, aps_operating_system]
    rcases hd : pool.default_operating_system with _ | b <;>
      rcases hs : s.operating_system with _ | sb <;> simp [hd, hs]
  · rw [aps_screen, aps_screen]
    by_cases hd : dictTruthy pool.default_screen <;>
      by_cases hs : dictTruthy s.screen <;> simp [hd, hs]
  · rw [aps_proxy, aps_proxy]
    by_cases hd : dictTruthy pool.default_proxy <;>
      by_cases hs : dictTruthy s.proxy <;> simp [hd, hs]
  · rw [aps_resource_limits, aps_resource_limits]
    by_cases hd : dictTruthy pool.default_resource_limits <;>
      by_cases hs : dictTruthy s.resource_limits <;> simp [hd, hs]
  · rw [aps_environment, aps_environment]
    by_cases hd : dictTruthy pool.default_environment <;>
      by_cases hs : dictTruthy s.environment <;> simp [hd, hs]
  · rw [(aps_frame pool (apply_pool_defaults pool s)).2.1]
  · rw [(aps_frame pool (apply_pool_defaults pool s)).2.2.1]
  · rw [(aps_frame pool (apply_pool_defaults pool s)).2.2.2.1]
  · rw [(aps_frame pool (apply_pool_defaults pool s)).2.2.2.2.1]
  · rw [(aps_frame pool (apply_pool_defaults pool s)).2.2.2.2.2.1]
  · rw [(aps_frame pool (apply_pool_defaults pool s)).2.2.2.2.2.2.1]
  · rw [(aps_frame pool (apply_pool_defaults pool s)).2.2.2.2.2.2.2]

/-- C8: the defaults merge copies a pool default into the session only when
the pool default is set (Python-truthy) and the session's field is unset
(falsy), so an explicitly set session value is never overwritten; all
non-configuration fields are untouched; and the merge is idempotent:
`Merge(Merge(s,p),p) = Merge(s,p)`. -/
theorem claim_C8_defaults_merge_idempotent (pool : WorkPool) (s : Session) :
    ((apply_pool_defaults pool s).browser =
      if pool.default_browser.isSome ∧ s.browser.isNone then pool.default_browser
      else s.browser)
    ∧ ((apply_pool_defaults pool s).version =
      if pool.default_browser_version.isSome ∧ s.version.isNone then pool.default_browser_version
      else s.version)
    ∧ ((apply_pool_defaults pool s).headless =
      if pool.default_headless.isSome ∧ s.headless.isNone then pool.default_headless
      else s.headless)
    ∧ ((apply_pool_defaults pool s).operating_system =
      if pool.default_operating_system.isSome ∧ s.operating_system.isNone then
        pool.default_operating_system
      else s.operating_system)
    ∧ ((apply_pool_defaults pool s).screen =
      if dictTruthy pool.default_screen ∧ ¬ dictTruthy s.screen then pool.default_screen
      else s.screen)
    ∧ ((apply_pool_defaults pool s).proxy =
      if dictTruthy pool.default_proxy ∧ ¬ dictTruthy s.proxy then pool.default_proxy
      else s.proxy)
    ∧ ((apply_pool_defaults pool s).resource_limits =
      if dictTruthy pool.default_resource_limits ∧ ¬ dictTruthy s.resource_limits then
        pool.default_resource_limits
      else s.resource_limits)
    ∧ ((apply_pool_defaults pool s).environment =
      if dictTruthy pool.default_environment ∧ ¬ dictTruthy s.environment then
        pool.default_environment
      else s.environment)
    ∧ (apply_pool_defaults pool s).status = s.status
    ∧ (apply_pool_defaults pool s).worker_id = s.worker_id
    ∧ apply_pool_defaults pool (apply_pool_defaults pool s) = apply_pool_defaults pool s :=
  ⟨aps_browser pool s, aps_version pool s, aps_headless pool s, aps_operating_system pool s,
   aps_screen pool s, aps_proxy pool s, aps_resource_limits pool s, aps_environment pool s,
   (aps_frame pool s).2.1, (aps_frame pool s).2.2.2.2.2.2.1,
   apply_pool_defaults_idem pool s⟩

/-! ### C9 -/

/-- A STARTING session of pool 1, not yet bound to a worker. -/
def c9SessionStarting : Session :=
  { s3Session with id := 2, status := .starting, worker_id := none }

/-- Pool 1 with one STARTING session and one worker. -/
def c9DB : DB := ⟨[c9SessionStarting], [s3Worker], [s3Pool], []⟩

/-- Result of deleting pool 1 from `c9DB`: pool and worker gone, the
session's pool reference nulled. -/
def c9DBdeleted : DB := ⟨[{ c9SessionStarting with work_pool_id := none }], [], [], []⟩

/-- Pool 1 with one PENDING session referencing it. -/
def c9PendingDB : DB := ⟨[c5SessionA], [s3Worker], [s3Pool], []⟩

/-- C9 counterexample: a STARTING session does not block deletion — the
pool is deleted with `force = false` — and when a PENDING session does block
deletion the handler raises HTTP 400, not the 409 the claim states. -/
theorem claim_C9_counterexample :
    c9SessionStarting.status = .starting
    ∧ c9SessionStarting.work_pool_id = some s3Pool.id
    ∧ delete_work_pool c9DB 1 false = .ok c9DBdeleted
    ∧ delete_work_pool c9PendingDB 1 false =
        .error ⟨400,
          "Cannot delete work pool with active sessions. Use force=true to force deletion."⟩ :=
  ⟨rfl, rfl, rfl, rfl⟩

/-- C9 amended: with `force = false`, deletion of an existing pool fails with
HTTP 400 exactly when some session with status PENDING or RUNNING (STARTING
does not count) references the pool; with no such session, or with
`force = true`, the pool is deleted, its workers are cascade-deleted and
referencing sessions get their pool reference nulled. -/
theorem claim_C9_amended (db : DB) (pid : Nat) (pool : WorkPool)
    (hp : db.pools.find? (fun p => decide (p.id = pid)) = some pool) :
    ((∃ s ∈ db.sessions, s.work_pool_id = some pid ∧ (s.status = .pending ∨ s.status = .running)) →
        ∃ e, delete_work_pool db pid false = .error e ∧ e.status_code = 400)
    ∧ ((∀ s ∈ db.sessions,
          ¬(s.work_pool_id = some pid ∧ (s.status = .pending ∨ s.status = .running))) →
        ∃ db', delete_work_pool db pid false = .ok db'
          ∧ (∀ p ∈ db'.pools, p.id ≠ pid)
          ∧ (∀ w ∈ db'.workers, w.work_pool_id ≠ pid)
          ∧ (∀ s ∈ db'.sessions, s.work_pool_id ≠ some pid))
    ∧ (∃ db', delete_work_pool db pid true = .ok db'
          ∧ (∀ p ∈ db'.pools, p.id ≠ pid)
          ∧ (∀ w ∈ db'.workers, w.work_pool_id ≠ pid)
          ∧ (∀ s ∈ db'.sessions, s.work_pool_id ≠ some pid)) := by
  have hpools : ∀ p ∈ db.pools.filter (fun p => decide (p.id ≠ pid)), p.id ≠ pid := by
    intro p hp'
    simpa using (List.mem_filter.mp hp').2
  have hworkers : ∀ w ∈ db.workers.filter (fun w => decide (w.work_pool_id ≠ pid)),
      w.work_pool_id ≠ pid := by
    intro w hw'
    simpa using (List.mem_filter.mp hw').2
  have hsessions : ∀ s ∈ db.sessions.map (fun s =>
      if s.work_pool_id = some pid then { s with work_pool_id := none } else s),
      s.work_pool_id ≠ some pid := by
    intro s' hs'
    obtain ⟨s, _, rfl⟩ := List.mem_map.mp hs'
    by_cases hwp : s.work_pool_id = some pid
    · simp [hwp]
    · simp [hwp]
  refine ⟨?_, ?_, ?_⟩
  · rintro ⟨s, hsmem, hsprop⟩
    have hmem : s ∈ db.sessions.filter (fun s =>
        decide (s.work_pool_id = some pid ∧ (s.status = .pending ∨ s.status = .running))) :=
      List.mem_filter.mpr ⟨hsmem, by simpa using hsprop⟩
    have hlen : 0 < (db.sessions.filter (fun s =>
        decide (s.work_pool_id = some pid ∧
          (s.status = .pending ∨ s.status = .running)))).length :=
      List.length_pos.mpr (List.ne_nil_of_mem hmem)
    refine ⟨⟨400,
      "Cannot delete work pool with active sessions. Use force=true to force deletion."⟩, ?_, rfl⟩
    unfold delete_work_pool
    rw [hp]
    rw [if_pos ⟨by simp, hlen⟩]
  · intro hall
    have hnil : db.sessions.filter (fun s =>
        decide (s.work_pool_id = some pid ∧ (s.status = .pending ∨ s.status = .running))) = [] := by
      rw [List.filter_eq_nil_iff]
      intro s hsmem
      simpa using hall s hsmem
    refine ⟨{ db with
        pools := db.pools.filter (fun p => decide (p.id ≠ pid))
        workers := db.workers.filter (fun w => decide (w.work_pool_id ≠ pid))
        sessions := db.sessions.map (fun s =>
          if s.work_pool_id = some pid then { s with work_pool_id := none } else s) },
      ?_, hpools, hworkers, hsessions⟩
    unfold delete_work_pool
    rw [hp]
    rw [if_neg (by rw [hnil]; simp)]
  · refine ⟨{ db with
        pools := db.pools.filter (fun p => decide (p.id ≠ pid))
        workers := db.workers.filter (fun w => decide (w.work_pool_id ≠ pid))
        sessions := db.sessions.map (fun s =>
          if s.work_pool_id = some pid then { s with work_pool_id := none } else s) },
      ?_, hpools, hworkers, hsessions⟩
    unfold delete_work_pool
    rw [hp]
    rw [if_neg (by simp)]

/-- C9 witness: the amended refusal conjunct evaluated on the concrete state
with one PENDING session in the pool. -/
theorem claim_C9_amended_witness :
    ∃ e, delete_work_pool c9PendingDB 1 false = .error e ∧ e.status_code = 400 :=
  (claim_C9_amended c9PendingDB 1 s3Pool rfl).1
    ⟨c5SessionA, by decide, by decide, Or.inl (by decide)⟩

/-! ### C10 -/

/-- C10: a successfully created worker starts with `current_load = 0`
(`WorkerCreate` carries no load field, and the handler writes the constant
0); its api key is the request's key when that is truthy, else the token
freshly generated by `secrets.token_urlsafe(token_urlsafe_nbytes)` — a
URL-safe generator invoked with 32 ≥ 32 random bytes. -/
theorem claim_C10_create_worker (db : DB) (req : WorkerCreate) (gk : String)
    (db' : DB) (w : Worker)
    (h : create_worker db req gk = .ok (db', w)) :
    w.current_load = 0
    ∧ (req.api_key = none → w.api_key = some gk)
    ∧ (req.api_key = some "" → w.api_key = some gk)
    ∧ (∀ k, req.api_key = some k → ¬ k.isEmpty → w.api_key = some k)
    ∧ db'.workers = db.workers ++ [w]
    ∧ 32 ≤ token_urlsafe_nbytes := by
  unfold create_worker at h
  split at h
  · exact absurd h (by simp)
  · split at h
    · exact absurd h (by simp)
    · simp only [Except.ok.injEq, Prod.mk.injEq] at h
      obtain ⟨rfl, rfl⟩ := h
      refine ⟨rfl, ?_, ?_, ?_, rfl, by decide⟩
      · intro hk
        simp [pyOrStr, hk]
      · intro hk
        simp +decide [pyOrStr, hk]
      · intro k hk hne
        simp [pyOrStr, hk, hne]

/-- The create-worker request of the C10 witness (no api key supplied). -/
def c10Req : WorkerCreate := ⟨7, "w7", 1, .offline, 3, .docker, [], none⟩

/-- The worker row that request creates when the generated token is "GEN". -/
def c10Worker : Worker :=
  ⟨7, "w7", 1, .offline, 3, 0, none, none, none, none, none, .docker, [], some "GEN"⟩

/-- C10 witness: the theorem evaluated on a concrete creation. -/
theorem claim_C10_create_worker_witness :
    c10Worker.current_load = 0
    ∧ (c10Req.api_key = none → c10Worker.api_key = some "GEN")
    ∧ (c10Req.api_key = some "" → c10Worker.api_key = some "GEN")
    ∧ (∀ k, c10Req.api_key = some k → ¬ k.isEmpty → c10Worker.api_key = some k)
    ∧ (DB.mk s3DB.sessions (s3DB.workers ++ [c10Worker]) s3DB.pools s3DB.events).workers
        = s3DB.workers ++ [c10Worker]
    ∧ 32 ≤ token_urlsafe_nbytes :=
  claim_C10_create_worker s3DB c10Req "GEN"
    (DB.mk s3DB.sessions (s3DB.workers ++ [c10Worker]) s3DB.pools s3DB.events) c10Worker rfl

/-! ### C7 -/

/-- The claim's (spec's) notion of in-flight sessions of a pool: status
PENDING, STARTING or RUNNING — to be compared with the source's
`currentSessionsCount`, which omits STARTING. -/
def specNonTerminalCount (db : DB) (pool_id : Nat) : Nat :=
  (db.sessions.filter (fun s =>
    decide (s.work_pool_id = some pool_id ∧
      (s.status = .pending ∨ s.status = .starting ∨ s.status = .running)))).length

/-- The score exactly as the claim states it:
`10 × available_worker_slots − non_terminal_sessions`. -/
def specPoolScore (db : DB) (pool : WorkPool) : Int :=
  (availableWorkersCount db pool.id : Int) * 10 - (specNonTerminalCount db pool.id : Int)

/-- A second ACTIVE docker pool (id 2) without defaults. -/
def c7PoolB : WorkPool := { s3Pool with id := 2, name := "p2" }

/-- An online worker of pool 1 with a free slot. -/
def c7WorkerA : Worker := { s3Worker with current_load := 0, capacity := 1 }

/-- An online worker of pool 2 with a free slot. -/
def c7WorkerB : Worker :=
  { s3Worker with id := 2, name := "w2", work_pool_id := 2, current_load := 0, capacity := 1 }

/-- A STARTING session already bound to pool 1. -/
def c7Starting : Session := { s3Session with id := 2, status := .starting, worker_id := none }

/-- The PENDING session (id 100) to be placed. -/
def c7Pending : Session :=
  { s3Session with id := 100, status := .pending, worker_id := none, work_pool_id := none }

/-- Placement state: two active pools with one free worker each; pool 1 also
has a STARTING session. -/
def c7DB : DB :=
  ⟨[c7Pending, c7Starting], [c7WorkerA, c7WorkerB], [s3Pool, c7PoolB], []⟩

/-- C7 counterexample: under the claim's scoring pool 2 is strictly best
(10 versus 9, because pool 1 carries a STARTING session the claim counts),
yet the code — which ignores STARTING sessions and keeps the first pool on a
tie — binds the session to pool 1. -/
theorem claim_C7_counterexample :
    assign_session_to_work_pool c7DB 100 none =
      (⟨[{ c7Pending with work_pool_id := some 1 }, c7Starting], [c7WorkerA, c7WorkerB],
        [s3Pool, c7PoolB], []⟩, true)
    ∧ specPoolScore c7DB c7PoolB > specPoolScore c7DB s3Pool
    ∧ c7PoolB.status = .active
    ∧ poolCompatible c7Pending c7PoolB = true
    ∧ availableWorkersCount c7DB c7PoolB.id ≠ 0 :=
  ⟨rfl, by decide, rfl, rfl, by decide⟩

/-- Eligibility in the best-pool loop: compatible and at least one available
worker. -/
def poolEligible (db : DB) (session : Session) (p : WorkPool) : Prop :=
  poolCompatible session p = true ∧ availableWorkersCount db p.id ≠ 0

theorem selectBestPoolAux_snd_le (db : DB) (session : Session) :
    ∀ (l : List WorkPool) (acc : Option WorkPool × Int),
      acc.2 ≤ (selectBestPoolAux db session l acc).2 := by
  intro l
  induction l with
  | nil => intro acc; exact le_refl _
  | cons a as ih =>
    intro acc
    simp only [selectBestPoolAux]
    refine le_trans ?_ (ih _)
    by_cases h1 : poolCompatible session a
    · by_cases h2 : availableWorkersCount db a.id = 0
      · simp [h1, h2]
      · by_cases h3 : poolScore db a > acc.2
        · rw [if_neg (by simpa using h1), if_neg h2, if_pos h3]
          exact le_of_lt h3
        · rw [if_neg (by simpa using h1), if_neg h2, if_neg h3]
    · rw [if_pos (by simpa using h1)]

theorem selectBestPoolAux_score_le (db : DB) (session : Session) :
    ∀ (l : List WorkPool) (acc : Option WorkPool × Int) (q : WorkPool),
      q ∈ l → poolEligible db session q →
      poolScore db q ≤ (selectBestPoolAux db session l acc).2 := by
  intro l
  induction l with
  | nil =>
    intro acc q hq
    simp at hq
  | cons a as ih =>
    intro acc q hq helig
    simp only [selectBestPoolAux]
    rcases List.mem_cons.mp hq with rfl | hq'
    · obtain ⟨hc, ha⟩ := helig
      rw [if_neg (by simpa using hc), if_neg ha]
      by_cases h3 : poolScore db q > acc.2
      · rw [if_pos h3]
        exact selectBestPoolAux_snd_le db session as _
      · rw [if_neg h3]
        exact le_trans (by omega) (selectBestPoolAux_snd_le db session as acc)
    · exact ih _ q hq' helig

theorem selectBestPoolAux_cases (db : DB) (session : Session) :
    ∀ (l : List WorkPool) (acc : Option WorkPool × Int),
      selectBestPoolAux db session l acc = acc
      ∨ ∃ p, p ∈ l ∧ poolEligible db session p
          ∧ selectBestPoolAux db session l acc = (some p, poolScore db p)
          ∧ acc.2 < poolScore db p := by
  intro l
  induction l with
  | nil => intro acc; exact Or.inl rfl
  | cons a as ih =>
    intro acc
    simp only [selectBestPoolAux]
    by_cases h1 : poolCompatible session a
    · by_cases h2 : availableWorkersCount db a.id = 0
      · rw [if_neg (by simpa using h1), if_pos h2]
        rcases ih acc with heq | ⟨p, hmem, helig, heq, hlt⟩
        · exact Or.inl heq
        · exact Or.inr ⟨p, List.mem_cons_of_mem _ hmem, helig, heq, hlt⟩
      · rw [if_neg (by simpa using h1), if_neg h2]
        by_cases h3 : poolScore db a > acc.2
        · rw [if_pos h3]
          rcases ih (some a, poolScore db a) with heq | ⟨p, hmem, helig, heq, hlt⟩
          · exact Or.inr ⟨a, List.mem_cons_self a as, ⟨h1, h2⟩, heq, h3⟩
          · exact Or.inr ⟨p, List.mem_cons_of_mem _ hmem, helig, heq,
              lt_trans h3 (by simpa using hlt)⟩
        · rw [if_neg h3]
          rcases ih acc with heq | ⟨p, hmem, helig, heq, hlt⟩
          · exact Or.inl heq
          · exact Or.inr ⟨p, List.mem_cons_of_mem _ hmem, helig, heq, hlt⟩
    · rw [if_pos (by simpa using h1)]
      rcases ih acc with heq | ⟨p, hmem, helig, heq, hlt⟩
      · exact Or.inl heq
      · exact Or.inr ⟨p, List.mem_cons_of_mem _ hmem, helig, heq, hlt⟩

/-- C7 amended: without a requested pool, the best-pool loop scores each
compatible ACTIVE pool having at least one available worker as
`10 × available_workers − #(PENDING or RUNNING sessions)` — STARTING
sessions are not counted — and keeps the first pool whose score strictly
exceeds the running best (initially −1): the selected pool is eligible, its
score exceeds −1, and no eligible pool in the list scores higher; when no
pool is selected every eligible pool scores ≤ −1.  Ties are won by the
earlier pool in query order, as the concrete counterexample state shows. -/
theorem claim_C7_amended (db : DB) (session : Session) (pools : List WorkPool) :
    (∀ p, (selectBestPoolAux db session pools (none, -1)).1 = some p →
        p ∈ pools ∧ poolEligible db session p ∧ -1 < poolScore db p
        ∧ ∀ q ∈ pools, poolEligible db session q → poolScore db q ≤ poolScore db p)
    ∧ ((selectBestPoolAux db session pools (none, -1)).1 = none →
        ∀ q ∈ pools, poolEligible db session q → poolScore db q ≤ -1) := by
  constructor
  · intro p hp
    rcases selectBestPoolAux_cases db session pools (none, -1) with heq | ⟨p', hmem, helig, heq, hlt⟩
    · rw [heq] at hp
      exact absurd hp (by simp)
    · rw [heq] at hp
      have hpp : p' = p := by simpa using hp
      subst hpp
      refine ⟨hmem, helig, by simpa using hlt, ?_⟩
      intro q hq hqe
      have hle := selectBestPoolAux_score_le db session pools (none, -1) q hq hqe
      rw [heq] at hle
      exact hle
  · intro hnone q hq hqe
    rcases selectBestPoolAux_cases db session pools (none, -1) with heq | ⟨p', hmem, helig, heq, hlt⟩
    · have hle := selectBestPoolAux_score_le db session pools (none, -1) q hq hqe
      rw [heq] at hle
      exact hle
    · rw [heq] at hnone
      simp at hnone

/-- C7 witness: the amended selection property evaluated on the concrete
two-pool state, where pool 1 is picked. -/
theorem claim_C7_amended_witness :
    s3Pool ∈ [s3Pool, c7PoolB] ∧ poolEligible c7DB c7Pending s3Pool
    ∧ -1 < poolScore c7DB s3Pool
    ∧ ∀ q ∈ [s3Pool, c7PoolB], poolEligible c7DB c7Pending q →
        poolScore c7DB q ≤ poolScore c7DB s3Pool :=
  (claim_C7_amended c7DB c7Pending [s3Pool, c7PoolB]).1 s3Pool (by decide)

end Browsergrid
